import Mathlib

/-!
Verification of the CNES Pleiades/SPOT ARD pipeline orchestration
(`src/cnes/dataset.py`, `src/cnes/pleiades.py`, `src/cnes/spot.py`).

The embedding models the orchestration layer shallowly:

* paths are `String`s over a POSIX-style separator, mirroring `os.path`
  functions on relative paths as the pipeline produces them;
* the file system is a list of existing paths (`os.path.exists` is
  membership, `os.makedirs` inserts a directory entry);
* each OTB engine invocation (`app.ExecuteAndWriteOutput()`) is recorded
  as a constructor of `EngineCall` carrying the parameters the source
  sets, and is assumed to create the file at its declared output path;
* fallible Python code (exceptions such as `KeyError`, `IndexError`,
  `TypeError`, `ValueError`, `AttributeError`, `UnboundLocalError`)
  is modelled with `Except Unit`;
* external collaborators (archive extractor exit code, `glob` results,
  the `BBox.getImageRoi` region-of-interest resolver) are inputs of the
  run, supplied through `Env` and `Config`.

Logging side effects (`redirect_stdout`, the per-scene log file) and the
process-wide `OTB_MAX_RAM_HINT` environment variable are not observable
by any property below and are omitted.
-/

deriving instance DecidableEq for Except

namespace Gla

/-! ## Characters and digit strings -/

/-- `[0-9]` of the source's regular expressions (`re` digit class on
ASCII filenames). -/
def isDig (c : Char) : Bool := 48 ≤ c.toNat && c.toNat ≤ 57

/-- Positional value of a digit string, as Python `int()` computes it. -/
def digitsVal : List Char → Nat
  | [] => 0
  | c :: cs => (c.toNat - 48) * 10 ^ cs.length + digitsVal cs

/-- Strict lexicographic comparison of two character lists by code
point: Python string `<`. -/
def lexLt : List Char → List Char → Bool
  | [], [] => false
  | [], _ :: _ => true
  | _ :: _, [] => false
  | a :: as, b :: bs => if a = b then lexLt as bs else decide (a.toNat < b.toNat)

/-- Python string `<=` (total order): `a <= b` iff `not (b < a)`. -/
def strLe (a b : String) : Bool := !(lexLt b.data a.data)

/-! ## `os.path` helpers (POSIX flavour, as used on the pipeline's
relative paths) -/

/-- `os.path.basename`: the part after the last `/`. -/
def basenameAux : List Char → List Char → List Char
  | acc, [] => acc.reverse
  | acc, c :: cs => if c = '/' then basenameAux [] cs else basenameAux (c :: acc) cs

def basename (s : String) : String := ⟨basenameAux [] s.data⟩

/-- `os.path.dirname`: everything before the last `/`, with trailing
separators stripped unless the result is all separators. -/
def dirname (s : String) : String :=
  let head := (s.data.reverse.dropWhile (fun c => c ≠ '/')).reverse
  if head.all (fun c => c = '/') then ⟨head⟩
  else ⟨(head.reverse.dropWhile (fun c => c = '/')).reverse⟩

/-- `os.path.join` for the path shapes the pipeline builds. -/
def pathJoin (a b : String) : String :=
  if b.data.head? = some '/' then b
  else if a = "" then b
  else if a.data.getLast? = some '/' then a ++ b
  else a ++ "/" ++ b

/-- Python `str.replace`: replace every non-overlapping occurrence,
left to right.  Implemented with a fuel argument equal to the input
length (each step consumes at least one input character). -/
def startsWithL : List Char → List Char → Bool
  | _, [] => true
  | [], _ :: _ => false
  | c :: cs, p :: ps => c = p && startsWithL cs ps

def replaceFuel (pat rep : List Char) : Nat → List Char → List Char
  | 0, cs => cs
  | _ + 1, [] => []
  | n + 1, c :: cs =>
    if pat ≠ [] && startsWithL (c :: cs) pat then
      rep ++ replaceFuel pat rep n (cs.drop (pat.length - 1))
    else
      c :: replaceFuel pat rep n cs

def strReplace (s pat rep : String) : String :=
  ⟨replaceFuel pat.data rep.data s.data.length s.data⟩

/-- Python `str.strip('_')`. -/
def stripUnderscores (cs : List Char) : List Char :=
  ((cs.dropWhile (fun c => c = '_')).reverse.dropWhile (fun c => c = '_')).reverse

/-! ## Regular-expression search

Each pattern of the source is compiled to an anchored matcher (match at
the current position) and `re.search` is the first position, left to
right, where the matcher succeeds. -/

/-- `re.search`: first match of `matchAt` over all start positions. -/
def reSearch (matchAt : List Char → Option (List Char)) : List Char → Option (List Char)
  | [] => matchAt []
  | c :: cs =>
    match matchAt (c :: cs) with
    | some m => some m
    | none => reSearch matchAt cs

/-- Anchored matcher for `_[0-9]{15}_` (`Dataset.getDateTime`); returns
the 15 digits, which is the match with its underscores stripped. -/
def tsMatchAt : List Char → Option (List Char)
  | '_' :: cs =>
    let pre := cs.take 15
    if pre.length = 15 && pre.all isDig then
      match cs.drop 15 with
      | '_' :: _ => some pre
      | _ => none
    else none
  | _ => none

/-- Anchored matcher for `_PHR[\d][A|B]_` (`Pleiades.__init__`).  Note
the source's character class `[A|B]` also matches a literal `|`. -/
def phrMatchAt : List Char → Option (List Char)
  | '_' :: 'P' :: 'H' :: 'R' :: d :: a :: '_' :: _ =>
    if isDig d && (a = 'A' || a = '|' || a = 'B') then
      some ['_', 'P', 'H', 'R', d, a, '_']
    else none
  | _ => none

/-- Anchored matcher for `_SPOT[\d]_` (`Spot.__init__`). -/
def spotMatchAt : List Char → Option (List Char)
  | '_' :: 'S' :: 'P' :: 'O' :: 'T' :: d :: '_' :: _ =>
    if isDig d then some ['_', 'S', 'P', 'O', 'T', d, '_'] else none
  | _ => none

/-- Anchored matcher for `_R[0-9]{1}C[0-9]{1}` (`Dataset.getTile`);
no trailing underscore in the source pattern. -/
def tileMatchAt : List Char → Option (List Char)
  | '_' :: 'R' :: r :: 'C' :: c :: _ =>
    if isDig r && isDig c then some ['_', 'R', r, 'C', c] else none
  | _ => none

/-! ## Acquisition datetime (`Dataset.getDateTime`,
`Dataset.getDateTimeString`) -/

/-- The value a `datetime` instance carries, to microsecond
precision. -/
structure DT where
  year : Nat
  month : Nat
  day : Nat
  hour : Nat
  minute : Nat
  second : Nat
  microsecond : Nat
deriving DecidableEq, Repr

/-- The canonical split of a 15-digit token under the format
`%Y%m%d%H%M%S%f`: 4-2-2-2-2-2 digits and one fractional digit, which
`%f` scales to microseconds (`d * 100000`). -/
def parseTok (ds : List Char) : DT :=
  { year := digitsVal (ds.take 4)
    month := digitsVal ((ds.drop 4).take 2)
    day := digitsVal ((ds.drop 6).take 2)
    hour := digitsVal ((ds.drop 8).take 2)
    minute := digitsVal ((ds.drop 10).take 2)
    second := digitsVal ((ds.drop 12).take 2)
    microsecond := digitsVal (ds.drop 14) * 100000 }

def isLeap (y : Nat) : Bool := (y % 4 = 0 && y % 100 ≠ 0) || y % 400 = 0

def daysInMonth (y m : Nat) : Nat :=
  if m = 2 then (if isLeap y then 29 else 28)
  else if m = 4 || m = 6 || m = 9 || m = 11 then 30
  else 31

/-- Range checks performed by `datetime.strptime` (field regexes plus
the `datetime` constructor) on the canonical split. -/
def validDT (d : DT) : Bool :=
  1 ≤ d.year && d.year ≤ 9999 && 1 ≤ d.month && d.month ≤ 12 &&
  1 ≤ d.day && d.day ≤ daysInMonth d.year d.month &&
  d.hour ≤ 23 && d.minute ≤ 59 && d.second ≤ 59

/-- A token `strptime` accepts under its canonical 4-2-2-2-2-2-1
split. -/
def validTok (ds : List Char) : Bool :=
  ds.length = 15 && ds.all isDig && validDT (parseTok ds)

/-- `Dataset.getDateTime`: search `_[0-9]{15}_` in the basename, strip
the underscores and `strptime` the digits.  `.ok none` is Python's
`None` (no match); `.error` is the `ValueError` `strptime` raises on an
out-of-range token.  (CPython's `strptime` can realign field widths for
a token whose canonical split is out of range and then parse it anyway;
those inputs are conservatively mapped to the error branch here, and no
claim depends on them.) -/
def getDateTime (scene : String) : Except Unit (Option DT) :=
  match reSearch tsMatchAt (basename scene).data with
  | none => .ok none
  | some ds => if validTok ds then .ok (some (parseTok ds)) else .error ()

/-- Zero-padded rendering used by `strftime('%Y%m%d_%H%M%S')`. -/
def digitChar (n : Nat) : Char := Char.ofNat (48 + n)

def pad2 (n : Nat) : List Char := [digitChar (n / 10 % 10), digitChar (n % 10)]

def pad4 (n : Nat) : List Char :=
  [digitChar (n / 1000 % 10), digitChar (n / 100 % 10),
   digitChar (n / 10 % 10), digitChar (n % 10)]

/-- `strftime('%Y%m%d_%H%M%S')`: whole seconds only, the fractional
part is dropped. -/
def formatDT (d : DT) : String :=
  ⟨pad4 d.year ++ pad2 d.month ++ pad2 d.day ++ '_' ::
    (pad2 d.hour ++ pad2 d.minute ++ pad2 d.second)⟩

/-- `Dataset.getDateTimeString`: `getDateTime(scene).strftime(...)`.
When `getDateTime` returns `None` the attribute access on `None` raises
(`AttributeError`), hence `.error`. -/
def getDateTimeString (scene : String) : Except Unit String :=
  match getDateTime scene with
  | .ok (some d) => .ok (formatDT d)
  | .ok none => .error ()
  | .error e => .error e

/-! ## Platform identity (`Dataset.getPlatform`, the subclass
constructors and their NORAD tables) -/

/-- `Dataset.getPlatform`: search the platform pattern in the basename
and strip the delimiting underscores. -/
def getPlatform (scene : String) (matchAt : List Char → Option (List Char)) :
    Option String :=
  (reSearch matchAt (basename scene).data).map (fun m => ⟨stripUnderscores m⟩)

def pleiadesNoradIds : List (String × Nat) := [("PHR1A", 38012), ("PHR1B", 39019)]

def spotNoradIds : List (String × Nat) :=
  [("SPOT5", 27421), ("SPOT6", 38755), ("SPOT7", 40053)]

/-- Python `dict` lookup; `none` models the `KeyError` path. -/
def lookupNorad : List (String × Nat) → String → Option Nat
  | [], _ => none
  | (k, v) :: rest, s => if k = s then some v else lookupNorad rest s

/-- The per-scene state the constructors leave behind (`_scene`,
`_datetime`, `_platform`, `_tle`).  `_tle` holds the dictionary's value,
a Python `int`. -/
structure PState where
  scene : String
  datetime : String
  platform : String
  tle : Nat
deriving DecidableEq, Repr

/-- `Pleiades.__init__`: the base constructor first derives the
datetime string (an unparseable filename raises there), then the
platform pattern is matched and the NORAD table indexed — a missing or
unknown platform code raises `KeyError` (`None` or an absent key). -/
def pleiadesInit (scene : String) : Except Unit PState :=
  match getDateTimeString scene with
  | .error e => .error e
  | .ok d =>
    match getPlatform scene phrMatchAt with
    | none => .error ()
    | some c =>
      match lookupNorad pleiadesNoradIds c with
      | none => .error ()
      | some n => .ok ⟨scene, d, c, n⟩

/-- `Spot.__init__`: same sequence with the SPOT pattern and table. -/
def spotInit (scene : String) : Except Unit PState :=
  match getDateTimeString scene with
  | .error e => .error e
  | .ok d =>
    match getPlatform scene spotMatchAt with
    | none => .error ()
    | some c =>
      match lookupNorad spotNoradIds c with
      | none => .error ()
      | some n => .ok ⟨scene, d, c, n⟩

/-! ## `Dataset.getSubPath` -/

/-- A Python value as far as `os.path.join` is concerned. -/
inductive PyVal where
  | str : String → PyVal
  | int : Nat → PyVal
deriving DecidableEq, Repr

/-- `os.path.join` raises `TypeError` unless its components are
strings. -/
def osPathJoinPy : PyVal → PyVal → Except Unit String
  | .str a, .str b => .ok (pathJoin a b)
  | _, _ => .error ()

/-- `Dataset.getSubPath`: `os.path.join(self._tle, self._datetime)`.
`_tle` is the `int` from the NORAD table. -/
def getSubPath (st : PState) : Except Unit String :=
  osPathJoinPy (.int st.tle) (.str st.datetime)

/-! ## Tile metadata (`Dataset.getTile`, `Dataset.getTileCoordinates`) -/

/-- The extension part of `os.path.splitext`: from the last dot of the
final path component, unless every character before it in that
component is a dot. -/
def splitextExt (p : String) : List Char :=
  let b := (basename p).data
  let tail := (b.reverse.takeWhile (fun c => c ≠ '.')).reverse
  if tail.length = b.length then []
  else if (b.take (b.length - tail.length - 1)).all (fun c => c = '.') then []
  else '.' :: tail

/-- `Dataset.getTile`: only `.TIF` files (case-insensitive extension)
carry a tile code; search `_R[0-9]C[0-9]` and strip underscores. -/
def getTile (pathname : String) : Option String :=
  if (splitextExt pathname).map Char.toUpper = ['.', 'T', 'I', 'F'] then
    (reSearch tileMatchAt (basename pathname).data).map
      (fun m => (⟨stripUnderscores m⟩ : String))
  else none

/-- `re.findall(r'\d+', s)`: maximal runs of digits, left to right. -/
def digitGroupsAux : List Char → List Char → List (List Char)
  | cur, [] => if cur.isEmpty then [] else [cur.reverse]
  | cur, c :: cs =>
    if isDig c then digitGroupsAux (c :: cur) cs
    else if cur.isEmpty then digitGroupsAux [] cs
    else cur.reverse :: digitGroupsAux [] cs

/-- `Dataset.getTileCoordinates`: `[]` when there is no tile code,
otherwise the digit groups of the code. -/
def getTileCoordinates (pathname : String) : List (List Char) :=
  match getTile pathname with
  | none => []
  | some t => digitGroupsAux [] t.data

/-- The `nrows`/`ncols` loop of `Dataset.getTileFusionImages`:
`max` of the parsed row and column indices.  An image whose coordinate
list has fewer than two entries makes `coords[0]`/`coords[1]` raise
`IndexError`. -/
def computeMaxRC : List String → Except Unit (Nat × Nat)
  | [] => .ok (0, 0)
  | img :: rest =>
    match getTileCoordinates img with
    | c0 :: c1 :: _ =>
      match computeMaxRC rest with
      | .error e => .error e
      | .ok (nr, nc) => .ok (max nr (digitsVal c0), max nc (digitsVal c1))
    | _ => .error ()

/-! ## File system and engine model -/

/-- The existing paths; `os.path.exists` is membership. -/
abbrev FS := List String

/-- `os.makedirs`, guarded by `os.path.exists` at every call site. -/
def mkdirs (fs : FS) (d : String) : FS := if d ∈ fs then fs else d :: fs

/-- Region-of-interest corner coordinates handed to `ExtractROI`
(`ulx`, `uly`, `lrx`, `lry`).  The pipeline only forwards them, so the
floating-point payload is carried opaquely as integers. -/
structure Coords where
  ulx : Int
  uly : Int
  lrx : Int
  lry : Int
deriving DecidableEq, Repr

/-- One `ExecuteAndWriteOutput()` of an OTB application, with the
parameters the source sets on it. -/
inductive EngineCall where
  | downloadSrtm (il : List String) (tiledir : String)
  | opticalCalibration (inp out level : String) (milli : Bool)
  | tileFusion (il : List String) (out : String) (cols rows : Nat)
  | extractRoi (inp out : String) (coords : Coords)
  | superimpose (inr inm out : String) (elev : Option (String × String))
  | pansharpening (inp inxs out : String) (method : Option String)
deriving DecidableEq, Repr

def EngineCall.isSuperimpose : EngineCall → Bool
  | .superimpose _ _ _ _ => true
  | _ => false

/-- The run configuration resolved in `Dataset.__init__` (`dem_path`,
`geoid_pathname`, `pan_method`, and the optional `BBox` together with
its `getImageRoi` resolver). -/
structure Config where
  dem_path : Option String
  geoid_pathname : Option String
  pan_method : Option String
  roi : Option (String → Option Coords)

/-- The `elev.dem`/`elev.geoid` parameters, set only when both are
configured. -/
def elevParams (cfg : Config) : Option (String × String) :=
  match cfg.dem_path, cfg.geoid_pathname with
  | some d, some g => some (d, g)
  | _, _ => none

/-- External inputs of one scene run: the archive extractor's exit code
and the per-band `glob` results over the extracted tree
(`Dataset.getImageLists`). -/
structure Env where
  extractCode : Int
  imagesMS : List String
  imagesP : List String

/-! ## Pipeline stages (`Dataset`) -/

/-- `Dataset.getSrtmTiles`: one `DownloadSRTMTiles` invocation when a
DEM path is configured; no output-path cache. -/
def getSrtmTiles (cfg : Config) (fs : FS) (images : List String) :
    FS × List EngineCall :=
  match cfg.dem_path with
  | none => (fs, [])
  | some d => (fs, [.downloadSrtm images d])

/-- Output path of `OpticalCalibration`: basename with `.TIF` replaced
by `_CAL.TIF`, in the stage directory. -/
def calOutPath (out_path image : String) : String :=
  pathJoin out_path (strReplace (basename image) ".TIF" "_CAL.TIF")

/-- One iteration of the `Dataset.getCalibratedImages` loop: skip the
engine when the output file exists, otherwise create the directory and
run `OpticalCalibration` (which writes the output). -/
def calibrateOne (fs : FS) (out_path level : String) (milli : Bool) (image : String) :
    String × FS × List EngineCall :=
  if calOutPath out_path image ∈ fs then (calOutPath out_path image, fs, [])
  else (calOutPath out_path image,
        calOutPath out_path image :: mkdirs fs out_path,
        [.opticalCalibration image (calOutPath out_path image) level milli])

/-- `Dataset.getCalibratedImages`: the loop over the band's tiles,
appending every output path. -/
def getCalibratedImages (fs : FS) (images : List String) (out_path level : String)
    (milli : Bool) : List String × FS × List EngineCall :=
  match images with
  | [] => ([], fs, [])
  | img :: rest =>
    let (o, fs1, t1) := calibrateOne fs out_path level milli img
    let (os, fs2, t2) := getCalibratedImages fs1 rest out_path level milli
    (o :: os, fs2, t1 ++ t2)

/-- Python `list.sort()` on paths (ascending, lexicographic by code
point), as `Dataset.getTileFusionImages` applies before picking the
anchor tile. -/
def strLeProp (a b : String) : Prop := strLe a b = true

instance : DecidableRel strLeProp := fun a b =>
  inferInstanceAs (Decidable (strLe a b = true))

def sortStrings (l : List String) : List String :=
  List.insertionSort strLeProp l

/-- Output path of `TileFusion`: the anchor tile's basename with its
`_R1C1` token rewritten to `_MOSAIC`. -/
def mosaicOutPath (out_path first : String) : String :=
  pathJoin out_path (strReplace (basename first) "_R1C1" "_MOSAIC")

/-- `Dataset.getTileFusionImages`.  `.ok none` is the `None` returned
when the tile count does not fill the grid; `.error` covers the
`IndexError` paths (an image without a tile code, or `images[0]` on an
empty list). -/
def getTileFusionImages (fs : FS) (images : List String) (out_path : String) :
    Except Unit (Option String) × FS × List EngineCall :=
  match computeMaxRC images with
  | .error e => (.error e, fs, [])
  | .ok (nrows, ncols) =>
    if images.length = nrows * ncols then
      if 1 < images.length then
        match sortStrings images with
        | [] => (.error (), fs, [])
        | first :: rest =>
          if mosaicOutPath out_path first ∈ fs then
            (.ok (some (mosaicOutPath out_path first)), fs, [])
          else
            (.ok (some (mosaicOutPath out_path first)),
             mosaicOutPath out_path first :: mkdirs fs out_path,
             [.tileFusion (first :: rest) (mosaicOutPath out_path first) ncols nrows])
      else
        match images with
        | [] => (.error (), fs, [])
        | i :: _ => (.ok (some i), fs, [])
    else (.ok none, fs, [])

/-- Output path of `ExtractROI`: basename with `.TIF` replaced by
`_ROI.TIF`. -/
def roiOutPath (out_path image : String) : String :=
  pathJoin out_path (strReplace (basename image) ".TIF" "_ROI.TIF")

/-- `Dataset.getRoiImage`: ask the resolver for the image's corner
coordinates; `None` means no overlap and the stage returns `None`
without touching the engine or the file system. -/
def getRoiImage (resolver : String → Option Coords) (fs : FS) (image out_path : String) :
    Option String × FS × List EngineCall :=
  match resolver image with
  | none => (none, fs, [])
  | some c =>
    if roiOutPath out_path image ∈ fs then (some (roiOutPath out_path image), fs, [])
    else (some (roiOutPath out_path image),
          roiOutPath out_path image :: mkdirs fs out_path,
          [.extractRoi image (roiOutPath out_path image) c])

/-- Output path of `Superimpose`: the MS basename with `_MS_` rewritten
to `_MS_SUPER_`. -/
def supOutPath (out_path ms : String) : String :=
  pathJoin out_path (strReplace (basename ms) "_MS_" "_MS_SUPER_")

/-- `Dataset.getSuperimposedImage`: resample MS onto the panchromatic
geometry. -/
def getSuperimposedImage (cfg : Config) (fs : FS) (ms p out_path : String) :
    String × FS × List EngineCall :=
  if supOutPath out_path ms ∈ fs then (supOutPath out_path ms, fs, [])
  else (supOutPath out_path ms,
        supOutPath out_path ms :: mkdirs fs out_path,
        [.superimpose p ms (supOutPath out_path ms) (elevParams cfg)])

/-- Output path of `Pansharpening`: the MS basename with `_MS_SUPER_`
rewritten to `_PAN_` (a no-op on a name without that token). -/
def panOutPath (out_path ms : String) : String :=
  pathJoin out_path (strReplace (basename ms) "_MS_SUPER_" "_PAN_")

/-- `Dataset.getPansharpenImage`. -/
def getPansharpenImage (cfg : Config) (fs : FS) (ms p out_path : String) :
    String × FS × List EngineCall :=
  if panOutPath out_path ms ∈ fs then (panOutPath out_path ms, fs, [])
  else (panOutPath out_path ms,
        panOutPath out_path ms :: mkdirs fs out_path,
        [.pansharpening p ms (panOutPath out_path ms) cfg.pan_method])

/-! ## `processToArd` (`Pleiades`, `Spot`)

Both subclasses run the identical per-band body — calibrate every tile,
fuse the tiles, optionally clip to the region of interest — over
`['MS', 'P']`, after the same extraction and SRTM steps; they diverge
only after the mosaics exist.  `processBand` and `bandPhase` embed that
shared text once. -/

/-- The body of the `for _id in self._image_ids` loop.  If fusion
returned `None` and a region of interest is configured, the `None`
mosaic is passed to the resolver and the attribute access raises, hence
`.error`. -/
def bandCal (_cfg : Config) (fs : FS) (images : List String) (root id : String) :
    List String × FS × List EngineCall :=
  getCalibratedImages fs images (pathJoin root ("cal/" ++ id)) "toa" true

def bandFuse (cfg : Config) (fs : FS) (images : List String) (root id : String) :
    Except Unit (Option String) × FS × List EngineCall :=
  getTileFusionImages (bandCal cfg fs images root id).2.1
    (bandCal cfg fs images root id).1 (pathJoin root ("mosaic/" ++ id))

def processBand (cfg : Config) (fs : FS) (images : List String) (root id : String) :
    Except Unit (Option String) × FS × List EngineCall :=
  match (bandFuse cfg fs images root id).1 with
  | .error e =>
    (.error e, (bandFuse cfg fs images root id).2.1,
     (bandCal cfg fs images root id).2.2 ++ (bandFuse cfg fs images root id).2.2)
  | .ok m =>
    match cfg.roi with
    | none =>
      (.ok m, (bandFuse cfg fs images root id).2.1,
       (bandCal cfg fs images root id).2.2 ++ (bandFuse cfg fs images root id).2.2)
    | some resolver =>
      match m with
      | none =>
        (.error (), (bandFuse cfg fs images root id).2.1,
         (bandCal cfg fs images root id).2.2 ++ (bandFuse cfg fs images root id).2.2)
      | some mimg =>
        ((.ok (getRoiImage resolver (bandFuse cfg fs images root id).2.1 mimg
            (pathJoin root ("roi/" ++ id))).1),
         (getRoiImage resolver (bandFuse cfg fs images root id).2.1 mimg
            (pathJoin root ("roi/" ++ id))).2.1,
         (bandCal cfg fs images root id).2.2 ++ (bandFuse cfg fs images root id).2.2 ++
           (getRoiImage resolver (bandFuse cfg fs images root id).2.1 mimg
             (pathJoin root ("roi/" ++ id))).2.2)

/-- Everything between a successful extraction and the
platform-specific tail: SRTM tiles for the panchromatic list, then the
MS band, then the P band. -/
def bandMS (cfg : Config) (env : Env) (root : String) (fs : FS) :
    Except Unit (Option String) × FS × List EngineCall :=
  processBand cfg (getSrtmTiles cfg fs env.imagesP).1 env.imagesMS root "MS"

def bandP (cfg : Config) (env : Env) (root : String) (fs : FS) :
    Except Unit (Option String) × FS × List EngineCall :=
  processBand cfg (bandMS cfg env root fs).2.1 env.imagesP root "P"

def bandPhase (cfg : Config) (env : Env) (root : String) (fs : FS) :
    Except Unit (Option String × Option String) × FS × List EngineCall :=
  match (bandMS cfg env root fs).1 with
  | .error e =>
    (.error e, (bandMS cfg env root fs).2.1,
     (getSrtmTiles cfg fs env.imagesP).2 ++ (bandMS cfg env root fs).2.2)
  | .ok m1 =>
    match (bandP cfg env root fs).1 with
    | .error e =>
      (.error e, (bandP cfg env root fs).2.1,
       (getSrtmTiles cfg fs env.imagesP).2 ++ (bandMS cfg env root fs).2.2 ++
         (bandP cfg env root fs).2.2)
    | .ok m2 =>
      (.ok (m1, m2), (bandP cfg env root fs).2.1,
       (getSrtmTiles cfg fs env.imagesP).2 ++ (bandMS cfg env root fs).2.2 ++
         (bandP cfg env root fs).2.2)

/-- The working root `<scene_dir>/tmp` and the `tmp/scene` extraction
directory both profiles create. -/
def rootOf (scene : String) : String := pathJoin (dirname scene) "tmp"

def sceneFS (scene : String) (fs0 : FS) : FS :=
  mkdirs fs0 (pathJoin (rootOf scene) "scene")

/-- The superimposition run of `Pleiades.processToArd` on band mosaics
`ms`/`p`. -/
def pleiadesSuper (cfg : Config) (env : Env) (scene : String) (fs0 : FS)
    (ms p : String) : String × FS × List EngineCall :=
  getSuperimposedImage cfg (bandPhase cfg env (rootOf scene) (sceneFS scene fs0)).2.1
    ms p (pathJoin (rootOf scene) "pan")

/-- `Pleiades.processToArd`.  On a failed extraction the source skips
to `return pan_image, mosaic['MS']` with both names unbound
(`UnboundLocalError`), hence `.error` with no engine call.  On success
it superimposes the MS mosaic onto the panchromatic geometry,
overwrites `mosaic['MS']` with that superimposed image, pansharpens it,
and returns the pair.  A band whose mosaic slot holds `None` reaches
the engine bindings as `None` and raises, hence `.error`. -/
def pleiadesProcessToArd (cfg : Config) (env : Env) (scene : String) (fs0 : FS) :
    Except Unit (String × String) × FS × List EngineCall :=
  if env.extractCode = 0 then
    match (bandPhase cfg env (rootOf scene) (sceneFS scene fs0)).1 with
    | .error e =>
      (.error e, (bandPhase cfg env (rootOf scene) (sceneFS scene fs0)).2.1,
       (bandPhase cfg env (rootOf scene) (sceneFS scene fs0)).2.2)
    | .ok (some ms, some p) =>
      ((.ok ((getPansharpenImage cfg (pleiadesSuper cfg env scene fs0 ms p).2.1
          (pleiadesSuper cfg env scene fs0 ms p).1 p (pathJoin (rootOf scene) "pan")).1,
        (pleiadesSuper cfg env scene fs0 ms p).1)),
       (getPansharpenImage cfg (pleiadesSuper cfg env scene fs0 ms p).2.1
          (pleiadesSuper cfg env scene fs0 ms p).1 p (pathJoin (rootOf scene) "pan")).2.1,
       (bandPhase cfg env (rootOf scene) (sceneFS scene fs0)).2.2 ++
         (pleiadesSuper cfg env scene fs0 ms p).2.2 ++
         (getPansharpenImage cfg (pleiadesSuper cfg env scene fs0 ms p).2.1
            (pleiadesSuper cfg env scene fs0 ms p).1 p (pathJoin (rootOf scene) "pan")).2.2)
    | .ok _ =>
      (.error (), (bandPhase cfg env (rootOf scene) (sceneFS scene fs0)).2.1,
       (bandPhase cfg env (rootOf scene) (sceneFS scene fs0)).2.2)
  else (.error (), sceneFS scene fs0, [])

/-- `Spot.processToArd`.  Identical until the mosaics exist, then it
pansharpens the fused (optionally clipped) MS mosaic directly — no
superimposition or bundle stage — and falls off the function with a
bare `return`: the computed pansharpened path is discarded and the
caller receives `None` (`.ok none`).  The `ard_path` parameter is
accepted and never read, as in the source. -/
def spotProcessToArd (cfg : Config) (env : Env) (scene _ard_path : String) (fs0 : FS) :
    Except Unit (Option String) × FS × List EngineCall :=
  if env.extractCode = 0 then
    match (bandPhase cfg env (rootOf scene) (sceneFS scene fs0)).1 with
    | .error e =>
      (.error e, (bandPhase cfg env (rootOf scene) (sceneFS scene fs0)).2.1,
       (bandPhase cfg env (rootOf scene) (sceneFS scene fs0)).2.2)
    | .ok (some ms, some p) =>
      (.ok none,
       (getPansharpenImage cfg (bandPhase cfg env (rootOf scene) (sceneFS scene fs0)).2.1
          ms p (pathJoin (rootOf scene) "pan")).2.1,
       (bandPhase cfg env (rootOf scene) (sceneFS scene fs0)).2.2 ++
         (getPansharpenImage cfg (bandPhase cfg env (rootOf scene) (sceneFS scene fs0)).2.1
            ms p (pathJoin (rootOf scene) "pan")).2.2)
    | .ok _ =>
      (.error (), (bandPhase cfg env (rootOf scene) (sceneFS scene fs0)).2.1,
       (bandPhase cfg env (rootOf scene) (sceneFS scene fs0)).2.2)
  else (.ok none, sceneFS scene fs0, [])

/-! ## Basic lemmas -/

theorem mem_mkdirs {fs : FS} {d x : String} (h : x ∈ fs) : x ∈ mkdirs fs d := by
  unfold mkdirs
  split
  · exact h
  · exact List.mem_cons_of_mem _ h

/-- The result list of the calibration loop is determined by the inputs
alone. -/
theorem getCalibratedImages_fst (fs : FS) (imgs : List String) (out lvl : String)
    (m : Bool) :
    (getCalibratedImages fs imgs out lvl m).1 = imgs.map (calOutPath out) := by
  induction imgs generalizing fs with
  | nil => rfl
  | cons i rest ih =>
    unfold getCalibratedImages calibrateOne
    by_cases h : calOutPath out i ∈ fs <;> simp [h, ih]

/-- The calibration loop only adds paths. -/
theorem mem_fs_getCalibratedImages {x : String} (fs : FS) (imgs : List String)
    (out lvl : String) (m : Bool) (h : x ∈ fs) :
    x ∈ (getCalibratedImages fs imgs out lvl m).2.1 := by
  induction imgs generalizing fs with
  | nil => exact h
  | cons i rest ih =>
    unfold getCalibratedImages calibrateOne
    by_cases hm : calOutPath out i ∈ fs
    · simpa [hm] using ih fs h
    · simpa [hm] using ih _ (List.mem_cons_of_mem _ (mem_mkdirs h))

/-- After the calibration loop every declared output exists (a cache
hit found it, a cache miss had the engine write it). -/
theorem calOut_mem_getCalibratedImages (fs : FS) (imgs : List String)
    (out lvl : String) (m : Bool) {i : String} (h : i ∈ imgs) :
    calOutPath out i ∈ (getCalibratedImages fs imgs out lvl m).2.1 := by
  induction imgs generalizing fs with
  | nil => cases h
  | cons j rest ih =>
    unfold getCalibratedImages calibrateOne
    rcases List.mem_cons.mp h with rfl | hr
    · by_cases hm : calOutPath out i ∈ fs
      · simpa [hm] using mem_fs_getCalibratedImages _ rest out lvl m hm
      · simpa [hm] using
          mem_fs_getCalibratedImages _ rest out lvl m (List.mem_cons_self _ _)
    · by_cases hm : calOutPath out j ∈ fs <;> simpa [hm] using ih _ hr

/-- When every output already exists the loop touches nothing and the
engine is never invoked. -/
theorem getCalibratedImages_cached (fs : FS) (imgs : List String) (out lvl : String)
    (m : Bool) (h : ∀ i ∈ imgs, calOutPath out i ∈ fs) :
    getCalibratedImages fs imgs out lvl m = (imgs.map (calOutPath out), fs, []) := by
  induction imgs with
  | nil => rfl
  | cons i rest ih =>
    unfold getCalibratedImages calibrateOne
    have hi := h i (List.mem_cons_self _ _)
    simp [hi, ih (fun j hj => h j (List.mem_cons_of_mem _ hj))]

/-- The pansharpening output exists after one run. -/
theorem panOut_mem_getPansharpenImage (cfg : Config) (fs : FS) (ms p outP : String) :
    panOutPath outP ms ∈ (getPansharpenImage cfg fs ms p outP).2.1 := by
  unfold getPansharpenImage
  by_cases h : panOutPath outP ms ∈ fs <;> simp [h]

/-! ## C3 — stage idempotence via the file-existence cache -/

/-- C3 (confirmed).  For a stage invocation whose deterministic output
path already exists, the stage returns that path with no engine call
and an untouched file system (shown for the two cited stages,
`OpticalCalibration` per image and `Pansharpening`); consequently
running either stage twice on identical inputs issues no engine call
the second time and returns the same output both times. -/
theorem stage_cache_idempotent (cfg : Config) (fsA fsB fsC fsD : FS)
    (imgs : List String) (out lvl outP ms p img : String) (m : Bool)
    (h1 : calOutPath out img ∈ fsA)
    (h2 : panOutPath outP ms ∈ fsB) :
    calibrateOne fsA out lvl m img = (calOutPath out img, fsA, []) ∧
    getPansharpenImage cfg fsB ms p outP = (panOutPath outP ms, fsB, []) ∧
    (getCalibratedImages (getCalibratedImages fsC imgs out lvl m).2.1 imgs out lvl m).1
      = (getCalibratedImages fsC imgs out lvl m).1 ∧
    (getCalibratedImages (getCalibratedImages fsC imgs out lvl m).2.1 imgs out lvl m).2.2
      = [] ∧
    (getPansharpenImage cfg (getPansharpenImage cfg fsD ms p outP).2.1 ms p outP).1
      = (getPansharpenImage cfg fsD ms p outP).1 ∧
    (getPansharpenImage cfg (getPansharpenImage cfg fsD ms p outP).2.1 ms p outP).2.2
      = [] := by
  have hcal2 := getCalibratedImages_cached
    (getCalibratedImages fsC imgs out lvl m).2.1 imgs out lvl m
    (fun i hi => calOut_mem_getCalibratedImages fsC imgs out lvl m hi)
  have hpan2mem := panOut_mem_getPansharpenImage cfg fsD ms p outP
  refine ⟨?_, ?_, ?_, ?_, ?_, ?_⟩
  · unfold calibrateOne
    simp [h1]
  · unfold getPansharpenImage
    simp [h2]
  · rw [hcal2, getCalibratedImages_fst]
  · rw [hcal2]
  · conv_lhs => rw [getPansharpenImage]
    simp only [hpan2mem, if_pos]
    unfold getPansharpenImage
    by_cases h : panOutPath outP ms ∈ fsD <;> simp [h]
  · conv_lhs => rw [getPansharpenImage]
    simp [hpan2mem]

/-- Witness for `stage_cache_idempotent` at a concrete cached file
system. -/
theorem stage_cache_idempotent_witness :
    calibrateOne [calOutPath "c" "a/IMG_X.TIF"] "c" "toa" true "a/IMG_X.TIF"
      = (calOutPath "c" "a/IMG_X.TIF", [calOutPath "c" "a/IMG_X.TIF"], []) ∧
    getPansharpenImage ⟨none, none, none, none⟩ [panOutPath "q" "a/IMG_MS_SUPER_1.TIF"]
        "a/IMG_MS_SUPER_1.TIF" "a/IMG_P_1.TIF" "q"
      = (panOutPath "q" "a/IMG_MS_SUPER_1.TIF",
         [panOutPath "q" "a/IMG_MS_SUPER_1.TIF"], []) ∧
    (getCalibratedImages
        (getCalibratedImages [] ["a/IMG_X.TIF"] "c" "toa" true).2.1
        ["a/IMG_X.TIF"] "c" "toa" true).1
      = (getCalibratedImages [] ["a/IMG_X.TIF"] "c" "toa" true).1 ∧
    (getCalibratedImages
        (getCalibratedImages [] ["a/IMG_X.TIF"] "c" "toa" true).2.1
        ["a/IMG_X.TIF"] "c" "toa" true).2.2 = [] ∧
    (getPansharpenImage ⟨none, none, none, none⟩
        (getPansharpenImage ⟨none, none, none, none⟩ [] "a/IMG_MS_SUPER_1.TIF"
          "a/IMG_P_1.TIF" "q").2.1
        "a/IMG_MS_SUPER_1.TIF" "a/IMG_P_1.TIF" "q").1
      = (getPansharpenImage ⟨none, none, none, none⟩ [] "a/IMG_MS_SUPER_1.TIF"
          "a/IMG_P_1.TIF" "q").1 ∧
    (getPansharpenImage ⟨none, none, none, none⟩
        (getPansharpenImage ⟨none, none, none, none⟩ [] "a/IMG_MS_SUPER_1.TIF"
          "a/IMG_P_1.TIF" "q").2.1
        "a/IMG_MS_SUPER_1.TIF" "a/IMG_P_1.TIF" "q").2.2 = [] :=
  stage_cache_idempotent ⟨none, none, none, none⟩
    [calOutPath "c" "a/IMG_X.TIF"] [panOutPath "q" "a/IMG_MS_SUPER_1.TIF"] [] []
    ["a/IMG_X.TIF"] "c" "toa" "q" "a/IMG_MS_SUPER_1.TIF" "a/IMG_P_1.TIF"
    "a/IMG_X.TIF" true
    (List.mem_singleton.mpr rfl) (List.mem_singleton.mpr rfl)

/-! ## C8 — region-of-interest miss -/

/-- C8 (confirmed).  When the resolver reports no overlap,
`getRoiImage` returns `None`, invokes no engine application and creates
no directory: the file system is returned unchanged. -/
theorem roi_miss_yields_nothing (resolver : String → Option Coords) (fs : FS)
    (image out_path : String) (h : resolver image = none) :
    getRoiImage resolver fs image out_path = (none, fs, []) := by
  unfold getRoiImage
  rw [h]

/-- Witness for `roi_miss_yields_nothing` with the constant no-overlap
resolver. -/
theorem roi_miss_yields_nothing_witness :
    getRoiImage (fun _ => none) ["x"] "a/IMG_MS_MOSAIC.TIF" "r"
      = (none, ["x"], []) :=
  roi_miss_yields_nothing (fun _ => none) ["x"] "a/IMG_MS_MOSAIC.TIF" "r" rfl

/-! ## C9 — tile fusion on the empty list -/

/-- C9 (confirmed).  On an empty tile list the completeness check
passes vacuously (`0 = 0 * 0`), the single-tile branch is taken and
`images[0]` raises `IndexError`: the embedding's error branch, not a
mosaic and not the `None` incomplete-grid signal. -/
theorem tile_fusion_empty_input_errors (fs : FS) (out_path : String) :
    getTileFusionImages fs [] out_path = (.error (), fs, []) := rfl

/-! ## C10 — `getSubPath` and whole-second cache keys -/

/-- C10 (code bug).  The two scene names below differ only in the
final fractional-second digit of the timestamp token and construction
stores the identical whole-second `_datetime` string — but `getSubPath`
never yields that cache subdirectory: `os.path.join(self._tle, ...)`
is handed the `int` NORAD identifier and raises `TypeError`. -/
theorem getSubPath_raises_on_int_tle :
    pleiadesInit "d/IMG_PHR1A_MS_202001011230451_R1C1.zip"
      = .ok ⟨"d/IMG_PHR1A_MS_202001011230451_R1C1.zip", "20200101_123045",
             "PHR1A", 38012⟩ ∧
    pleiadesInit "d/IMG_PHR1A_MS_202001011230459_R1C1.zip"
      = .ok ⟨"d/IMG_PHR1A_MS_202001011230459_R1C1.zip", "20200101_123045",
             "PHR1A", 38012⟩ ∧
    getSubPath ⟨"d/IMG_PHR1A_MS_202001011230451_R1C1.zip", "20200101_123045",
                "PHR1A", 38012⟩ = .error () := by
  refine ⟨by decide, by decide, rfl⟩

/-! ## C7 — platform registry and construction -/

/-- C7 (corrected separately; this is the amended claim).  Provided the
filename also carries a parseable timestamp token — the base
constructor parses it before the platform is examined — a platform code
present in the registry makes construction succeed with exactly the
registry's orbital identity, and a filename whose platform code is
missing from the registry, or matches no pattern at all, fails
construction; there is no fallback. -/
theorem platform_registry_construction
    (sA sB sC sD sE sF cA cC cD cF dA dD : String) (nA nD : Nat)
    (h1 : getDateTimeString sA = .ok dA)
    (h2 : getPlatform sA phrMatchAt = some cA)
    (h3 : lookupNorad pleiadesNoradIds cA = some nA)
    (h4 : getPlatform sB phrMatchAt = none)
    (h5 : getPlatform sC phrMatchAt = some cC)
    (h6 : lookupNorad pleiadesNoradIds cC = none)
    (h7 : getDateTimeString sD = .ok dD)
    (h8 : getPlatform sD spotMatchAt = some cD)
    (h9 : lookupNorad spotNoradIds cD = some nD)
    (h10 : getPlatform sE spotMatchAt = none)
    (h11 : getPlatform sF spotMatchAt = some cF)
    (h12 : lookupNorad spotNoradIds cF = none) :
    pleiadesInit sA = .ok ⟨sA, dA, cA, nA⟩ ∧
    pleiadesInit sB = .error () ∧
    pleiadesInit sC = .error () ∧
    spotInit sD = .ok ⟨sD, dD, cD, nD⟩ ∧
    spotInit sE = .error () ∧
    spotInit sF = .error () := by
  refine ⟨?_, ?_, ?_, ?_, ?_, ?_⟩
  · unfold pleiadesInit
    rw [h1, h2]
    simp [h3]
  · unfold pleiadesInit
    cases hd : getDateTimeString sB with
    | error e => rfl
    | ok d => simp [h4]
  · unfold pleiadesInit
    cases hd : getDateTimeString sC with
    | error e => rfl
    | ok d => simp [h5, h6]
  · unfold spotInit
    rw [h7, h8]
    simp [h9]
  · unfold spotInit
    cases hd : getDateTimeString sE with
    | error e => rfl
    | ok d => simp [h10]
  · unfold spotInit
    cases hd : getDateTimeString sF with
    | error e => rfl
    | ok d => simp [h11, h12]

/-- Witness for `platform_registry_construction` on six concrete scene
names (known/unknown/absent platform codes for both profiles). -/
theorem platform_registry_construction_witness :
    pleiadesInit "IMG_PHR1B_P_202001011230451_R1C1.zip"
      = .ok ⟨"IMG_PHR1B_P_202001011230451_R1C1.zip", "20200101_123045",
             "PHR1B", 39019⟩ ∧
    pleiadesInit "IMG_NOPLATFORM_202001011230451.zip" = .error () ∧
    pleiadesInit "IMG_PHR5A_202001011230451.zip" = .error () ∧
    spotInit "IMG_SPOT6_202001011230451_R1C1.zip"
      = .ok ⟨"IMG_SPOT6_202001011230451_R1C1.zip", "20200101_123045",
             "SPOT6", 38755⟩ ∧
    spotInit "IMG_NOPLATFORM_202001011230451.zip" = .error () ∧
    spotInit "IMG_SPOT9_202001011230451.zip" = .error () :=
  platform_registry_construction
    "IMG_PHR1B_P_202001011230451_R1C1.zip" "IMG_NOPLATFORM_202001011230451.zip"
    "IMG_PHR5A_202001011230451.zip" "IMG_SPOT6_202001011230451_R1C1.zip"
    "IMG_NOPLATFORM_202001011230451.zip" "IMG_SPOT9_202001011230451.zip"
    "PHR1B" "PHR5A" "SPOT6" "SPOT9" "20200101_123045" "20200101_123045"
    39019 38755
    (by decide) (by decide) (by decide) (by decide) (by decide) (by decide)
    (by decide) (by decide) (by decide) (by decide) (by decide) (by decide)

/-- C7 counterexample.  A filename whose platform code is the registry
key `PHR1A` but which carries no timestamp token fails construction —
so membership of the platform code in the registry does not make
construction succeed as the claim states. -/
theorem registry_key_without_datetime_fails :
    getPlatform "IMG_PHR1A_MS.zip" phrMatchAt = some "PHR1A" ∧
    lookupNorad pleiadesNoradIds "PHR1A" = some 38012 ∧
    pleiadesInit "IMG_PHR1A_MS.zip" = .error () := by
  refine ⟨by decide, by decide, by decide⟩

/-! ## C6 — extraction failure aborts the scene -/

/-- C6 (confirmed).  A non-zero extractor exit code skips the whole
processing block: no engine stage runs (the trace is empty, only the
pre-existing `tmp/scene` directory creation happened) and no ARD
product exists — Pleiades raises `UnboundLocalError` at its return
statement and Spot falls through returning `None`. -/
theorem extract_failure_aborts (cfg : Config) (env : Env) (scene ard : String)
    (fs0 : FS) (h : env.extractCode ≠ 0) :
    pleiadesProcessToArd cfg env scene fs0
      = (.error (), mkdirs fs0 (pathJoin (pathJoin (dirname scene) "tmp") "scene"), []) ∧
    spotProcessToArd cfg env scene ard fs0
      = (.ok none, mkdirs fs0 (pathJoin (pathJoin (dirname scene) "tmp") "scene"), []) := by
  constructor
  · unfold pleiadesProcessToArd
    rw [if_neg h]
    unfold sceneFS rootOf
    rfl
  · unfold spotProcessToArd
    rw [if_neg h]
    unfold sceneFS rootOf
    rfl

/-- Witness for `extract_failure_aborts` at exit code 1. -/
theorem extract_failure_aborts_witness :
    pleiadesProcessToArd ⟨none, none, none, none⟩ ⟨1, ["m"], ["p"]⟩ "d/s.zip" []
      = (.error (),
         mkdirs [] (pathJoin (pathJoin (dirname "d/s.zip") "tmp") "scene"), []) ∧
    spotProcessToArd ⟨none, none, none, none⟩ ⟨1, ["m"], ["p"]⟩ "d/s.zip" "ard" []
      = (.ok none,
         mkdirs [] (pathJoin (pathJoin (dirname "d/s.zip") "tmp") "scene"), []) :=
  extract_failure_aborts ⟨none, none, none, none⟩ ⟨1, ["m"], ["p"]⟩ "d/s.zip" "ard" []
    (by decide)

/-! ## The string order underlying `list.sort()` -/

theorem charToNat_inj {a b : Char} (h : a.toNat = b.toNat) : a = b := by
  have h2 := congrArg Char.ofNat h
  rwa [Char.ofNat_toNat, Char.ofNat_toNat] at h2

theorem lexLt_irrefl (cs : List Char) : lexLt cs cs = false := by
  induction cs with
  | nil => rfl
  | cons c cs ih => simp [lexLt, ih]

theorem lexLt_asymm {a b : List Char} (h : lexLt a b = true) : lexLt b a = false := by
  induction a generalizing b with
  | nil =>
    cases b with
    | nil => simp [lexLt] at h
    | cons y ys => simp [lexLt]
  | cons x xs ih =>
    cases b with
    | nil => simp [lexLt] at h
    | cons y ys =>
      by_cases hxy : x = y
      · subst hxy
        simp only [lexLt, if_pos rfl] at h ⊢
        exact ih h
      · have hyx : y ≠ x := fun hcontra => hxy hcontra.symm
        simp only [lexLt, if_neg hxy, decide_eq_true_eq] at h
        simp only [lexLt, if_neg hyx, decide_eq_false_iff_not]
        omega

theorem lexLt_trans {a b c : List Char} (h1 : lexLt a b = true)
    (h2 : lexLt b c = true) : lexLt a c = true := by
  induction a generalizing b c with
  | nil =>
    cases b with
    | nil => simp [lexLt] at h1
    | cons y ys =>
      cases c with
      | nil => simp [lexLt] at h2
      | cons z zs => simp [lexLt]
  | cons x xs ih =>
    cases b with
    | nil => simp [lexLt] at h1
    | cons y ys =>
      cases c with
      | nil => simp [lexLt] at h2
      | cons z zs =>
        simp only [lexLt] at h1 h2 ⊢
        by_cases hxy : x = y
        · subst hxy
          rw [if_pos rfl] at h1
          by_cases hxz : x = z
          · subst hxz
            rw [if_pos rfl] at h2 ⊢
            exact ih h1 h2
          · rw [if_neg hxz] at h2 ⊢
            exact h2
        · rw [if_neg hxy, decide_eq_true_eq] at h1
          by_cases hyz : y = z
          · subst hyz
            rw [if_neg hxy, decide_eq_true_eq]
            exact h1
          · rw [if_neg hyz, decide_eq_true_eq] at h2
            have hxz : x ≠ z := by
              intro hcontra
              subst hcontra
              omega
            rw [if_neg hxz, decide_eq_true_eq]
            omega

theorem lexLt_connex {a b : List Char} (h1 : lexLt a b = false)
    (h2 : lexLt b a = false) : a = b := by
  induction a generalizing b with
  | nil =>
    cases b with
    | nil => rfl
    | cons y ys => simp [lexLt] at h1
  | cons x xs ih =>
    cases b with
    | nil => simp [lexLt] at h2
    | cons y ys =>
      by_cases hxy : x = y
      · subst hxy
        simp only [lexLt, if_pos rfl] at h1 h2
        rw [ih h1 h2]
      · have hyx : y ≠ x := fun hcontra => hxy hcontra.symm
        simp only [lexLt, if_neg hxy, decide_eq_false_iff_not] at h1
        simp only [lexLt, if_neg hyx, decide_eq_false_iff_not] at h2
        exact absurd (charToNat_inj (by omega)) hxy

theorem strLe_refl (a : String) : strLe a a = true := by
  simp [strLe, lexLt_irrefl]

theorem strLe_of_not_strLe {a b : String} (h : strLe a b = false) :
    strLe b a = true := by
  unfold strLe at h ⊢
  rw [Bool.not_eq_false'] at h
  rw [Bool.not_eq_true']
  exact lexLt_asymm h

theorem strLe_trans {a b c : String} (h1 : strLe a b = true)
    (h2 : strLe b c = true) : strLe a c = true := by
  unfold strLe at h1 h2 ⊢
  rw [Bool.not_eq_true'] at h1 h2 ⊢
  by_cases hca : lexLt c.data a.data = true
  · exfalso
    rcases Bool.eq_false_or_eq_true (lexLt b.data c.data) with hbc | hbc
    · have hba := lexLt_trans hbc hca
      rw [hba] at h1
      cases h1
    · have hbceq : b.data = c.data := lexLt_connex hbc h2
      rw [hbceq] at h1
      rw [h1] at hca
      cases hca
  · exact Bool.eq_false_iff.mpr hca

theorem strLeProp_total : ∀ a b : String, strLeProp a b ∨ strLeProp b a := by
  intro a b
  by_cases h : strLe a b = true
  · exact Or.inl h
  · exact Or.inr (strLe_of_not_strLe (Bool.not_eq_true _ ▸ h))

instance : IsTotal String strLeProp := ⟨strLeProp_total⟩

instance : IsTrans String strLeProp := ⟨fun _ _ _ => strLe_trans⟩

theorem mem_sortStrings {x : String} {l : List String} :
    x ∈ sortStrings l ↔ x ∈ l :=
  (List.perm_insertionSort strLeProp l).mem_iff

theorem sortStrings_length (l : List String) :
    (sortStrings l).length = l.length :=
  (List.perm_insertionSort strLeProp l).length_eq

theorem sortStrings_sorted (l : List String) :
    List.Sorted strLeProp (sortStrings l) :=
  List.sorted_insertionSort strLeProp l

/-- The anchor tile Python's `images.sort()` puts first is a member of
the list and lexicographically at most every member. -/
theorem sortStrings_head_min {l : List String} {first : String} {rest : List String}
    (h : sortStrings l = first :: rest) :
    first ∈ l ∧ ∀ x ∈ l, strLe first x = true := by
  constructor
  · exact mem_sortStrings.mp (h ▸ List.mem_cons_self _ _)
  · intro x hx
    have hx2 : x ∈ first :: rest := h ▸ mem_sortStrings.mpr hx
    rcases List.mem_cons.mp hx2 with rfl | hr
    · exact strLe_refl x
    · have hs := sortStrings_sorted l
      rw [h] at hs
      exact List.rel_of_sorted_cons hs x hr

/-! ## C2 — tile-grid completeness policy -/

/-- C2 counterexample.  A single tile at `R2C3` has parsed coordinates
but does not fill its `2 × 3` grid, and the stage yields no mosaic —
the claim's unconditional single-tile branch (return the tile's own
path) does not hold on the code. -/
theorem tile_fusion_single_offgrid_counterexample :
    (getTileFusionImages [] ["IMG_R2C3.TIF"] "out").1 = .ok none ∧
    (Except.ok none : Except Unit (Option String)) ≠ .ok (some "IMG_R2C3.TIF") := by
  refine ⟨by decide, by decide⟩

/-- C2 (corrected; this is the amended claim).  Fusion proceeds only
when the tile count equals `max(row) * max(col)`.  When the count
matches and there is more than one tile, the mosaic path is the
lexicographically first tile's basename with `_R1C1` rewritten to
`_MOSAIC`, placed in the output directory.  When there is exactly one
tile *and the count matches the grid area* (its coordinates multiply to
one), that tile's own path is returned unchanged with no engine
invocation and no file-system change.  When the count does not match —
whether the list has one tile or many — no mosaic path is produced. -/
theorem tile_grid_fusion_policy (fs1 fs2 fs3 : FS) (imgs1 imgs3 : List String)
    (img2 out1 out2 out3 : String) (nr1 nc1 nr2 nc2 nr3 nc3 : Nat)
    (ha1 : computeMaxRC imgs1 = .ok (nr1, nc1))
    (ha2 : imgs1.length = nr1 * nc1)
    (ha3 : 1 < imgs1.length)
    (hb1 : computeMaxRC [img2] = .ok (nr2, nc2))
    (hb2 : 1 = nr2 * nc2)
    (hc1 : computeMaxRC imgs3 = .ok (nr3, nc3))
    (hc2 : imgs3.length ≠ nr3 * nc3) :
    ((getTileFusionImages fs1 imgs1 out1).1
        = .ok (some (mosaicOutPath out1 ((sortStrings imgs1).headD ""))) ∧
      (sortStrings imgs1).headD "" ∈ imgs1 ∧
      imgs1.all (fun i => strLe ((sortStrings imgs1).headD "") i) = true) ∧
    getTileFusionImages fs2 [img2] out2 = (.ok (some img2), fs2, []) ∧
    (getTileFusionImages fs3 imgs3 out3).1 = .ok none := by
  have ha3R : 1 < nr1 * nc1 := ha2 ▸ ha3
  refine ⟨?_, ?_, ?_⟩
  · have hne : sortStrings imgs1 ≠ [] := by
      intro hnil
      have hlen := sortStrings_length imgs1
      rw [hnil] at hlen
      simp at hlen
      omega
    rcases hsort : sortStrings imgs1 with _ | ⟨first, rest⟩
    · exact absurd hsort hne
    · have hmin := sortStrings_head_min hsort
      refine ⟨?_, by simpa using hmin.1, ?_⟩
      · unfold getTileFusionImages
        rw [ha1]
        by_cases hcache : mosaicOutPath out1 first ∈ fs1 <;>
          simp [ha2, ha3R, hsort, hcache]
      · simp only [List.all_eq_true, decide_eq_true_eq]
        intro i hi
        simpa [hsort] using hmin.2 i hi
  · unfold getTileFusionImages
    rw [hb1]
    simp only [List.length_singleton, if_pos hb2]
    rfl
  · unfold getTileFusionImages
    rw [hc1]
    simp [hc2]

/-- Witness for `tile_grid_fusion_policy`: a complete 1×2 grid, a
single `R1C1` tile, and a 2×2 grid with one tile missing. -/
theorem tile_grid_fusion_policy_witness :
    ((getTileFusionImages [] ["t/A_R1C2.TIF", "t/A_R1C1.TIF"] "out").1
        = .ok (some (mosaicOutPath "out"
            ((sortStrings ["t/A_R1C2.TIF", "t/A_R1C1.TIF"]).headD ""))) ∧
      (sortStrings ["t/A_R1C2.TIF", "t/A_R1C1.TIF"]).headD ""
        ∈ ["t/A_R1C2.TIF", "t/A_R1C1.TIF"] ∧
      (["t/A_R1C2.TIF", "t/A_R1C1.TIF"].all (fun i =>
        strLe ((sortStrings ["t/A_R1C2.TIF", "t/A_R1C1.TIF"]).headD "") i)) = true) ∧
    getTileFusionImages ["x"] ["t/B_R1C1.TIF"] "out2"
      = (.ok (some "t/B_R1C1.TIF"), ["x"], []) ∧
    (getTileFusionImages [] ["t/C_R1C1.TIF", "t/C_R1C2.TIF", "t/C_R2C1.TIF"] "out3").1
      = .ok none :=
  tile_grid_fusion_policy [] ["x"] [] ["t/A_R1C2.TIF", "t/A_R1C1.TIF"]
    ["t/C_R1C1.TIF", "t/C_R1C2.TIF", "t/C_R2C1.TIF"] "t/B_R1C1.TIF"
    "out" "out2" "out3" 1 2 1 1 2 2
    (by decide) (by decide) (by decide) (by decide) (by decide) (by decide) (by decide)

/-! ## C5 — the timestamp token determines the parsed instant -/

theorem digitsVal_lt {cs : List Char} (h : ∀ c ∈ cs, isDig c = true) :
    digitsVal cs < 10 ^ cs.length := by
  induction cs with
  | nil => simp [digitsVal]
  | cons c cs ih =>
    have hc := h c (List.mem_cons_self _ _)
    have hrest := ih (fun d hd => h d (List.mem_cons_of_mem _ hd))
    have hd9 : c.toNat - 48 ≤ 9 := by
      simp only [isDig, Bool.and_eq_true, decide_eq_true_eq] at hc
      omega
    calc digitsVal (c :: cs)
        = (c.toNat - 48) * 10 ^ cs.length + digitsVal cs := rfl
      _ < (c.toNat - 48) * 10 ^ cs.length + 10 ^ cs.length := by omega
      _ = (c.toNat - 48 + 1) * 10 ^ cs.length := by ring
      _ ≤ 10 * 10 ^ cs.length := Nat.mul_le_mul_right _ (by omega)
      _ = 10 ^ (c :: cs).length := by
          simp [List.length_cons, pow_succ]
          ring

theorem digitsVal_inj {cs1 cs2 : List Char} (hlen : cs1.length = cs2.length)
    (h1 : ∀ c ∈ cs1, isDig c = true) (h2 : ∀ c ∈ cs2, isDig c = true)
    (hv : digitsVal cs1 = digitsVal cs2) : cs1 = cs2 := by
  induction cs1 generalizing cs2 with
  | nil =>
    cases cs2 with
    | nil => rfl
    | cons d ds => simp at hlen
  | cons c cs ih =>
    cases cs2 with
    | nil => simp at hlen
    | cons d ds =>
      have hlen2 : cs.length = ds.length := by simpa using hlen
      have hc := h1 c (List.mem_cons_self _ _)
      have hd := h2 d (List.mem_cons_self _ _)
      simp only [isDig, Bool.and_eq_true, decide_eq_true_eq] at hc hd
      have hv1 : digitsVal cs < 10 ^ cs.length :=
        digitsVal_lt (fun x hx => h1 x (List.mem_cons_of_mem _ hx))
      have hv2 : digitsVal ds < 10 ^ ds.length :=
        digitsVal_lt (fun x hx => h2 x (List.mem_cons_of_mem _ hx))
      have heq : (c.toNat - 48) * 10 ^ cs.length + digitsVal cs
          = (d.toNat - 48) * 10 ^ ds.length + digitsVal ds := hv
      rw [← hlen2] at hv2 heq
      have hpow : 0 < 10 ^ cs.length := Nat.pos_pow_of_pos _ (by omega)
      have hhead : c.toNat - 48 = d.toNat - 48 := by
        have e1 : ((c.toNat - 48) * 10 ^ cs.length + digitsVal cs) / 10 ^ cs.length
            = c.toNat - 48 := by
          rw [Nat.mul_comm, Nat.mul_add_div hpow, Nat.div_eq_of_lt hv1]
          omega
        have e2 : ((d.toNat - 48) * 10 ^ cs.length + digitsVal ds) / 10 ^ cs.length
            = d.toNat - 48 := by
          rw [Nat.mul_comm, Nat.mul_add_div hpow, Nat.div_eq_of_lt hv2]
          omega
        rw [← e1, ← e2, heq]
      have hcd : c = d := charToNat_inj (by omega)
      subst hcd
      have htail : digitsVal cs = digitsVal ds := by omega
      rw [ih hlen2 (fun x hx => h1 x (List.mem_cons_of_mem _ hx))
        (fun x hx => h2 x (List.mem_cons_of_mem _ hx)) htail]

theorem validTok_parts {t : List Char} (h : validTok t = true) :
    t.length = 15 ∧ ∀ c ∈ t, isDig c = true := by
  simp only [validTok, Bool.and_eq_true, decide_eq_true_eq, List.all_eq_true] at h
  exact ⟨h.1.1, h.1.2⟩

/-- Two distinct sub-second timestamp tokens never collapse to the
same microsecond-precision instant: the canonical-split parse is
injective on digit tokens. -/
theorem parseTok_inj {t u : List Char} (ht : validTok t = true)
    (hu : validTok u = true) (he : parseTok t = parseTok u) : t = u := by
  obtain ⟨hlt, hdt⟩ := validTok_parts ht
  obtain ⟨hlu, hdu⟩ := validTok_parts hu
  have groupEq : ∀ k n : Nat, k + n ≤ 15 →
      digitsVal ((t.drop k).take n) = digitsVal ((u.drop k).take n) →
      (t.drop k).take n = (u.drop k).take n := by
    intro k n hkn hv
    apply digitsVal_inj
    · have l1 : ((t.drop k).take n).length = n := by
        rw [List.length_take, List.length_drop, hlt]
        omega
      have l2 : ((u.drop k).take n).length = n := by
        rw [List.length_take, List.length_drop, hlu]
        omega
      rw [l1, l2]
    · intro c hc
      exact hdt c (List.mem_of_mem_drop (List.mem_of_mem_take hc))
    · intro c hc
      exact hdu c (List.mem_of_mem_drop (List.mem_of_mem_take hc))
    · exact hv
  have hy := congrArg DT.year he
  have hmo := congrArg DT.month he
  have hd := congrArg DT.day he
  have hh := congrArg DT.hour he
  have hmi := congrArg DT.minute he
  have hs := congrArg DT.second he
  have hus := congrArg DT.microsecond he
  simp only [parseTok] at hy hmo hd hh hmi hs hus
  have hdrop14 : t.drop 14 = u.drop 14 := by
    have hv : digitsVal (t.drop 14) = digitsVal (u.drop 14) :=
      Nat.eq_of_mul_eq_mul_right (by omega) hus
    have h14 : (t.drop 14).take 1 = (u.drop 14).take 1 := by
      apply groupEq 14 1 (by omega)
      rwa [List.take_of_length_le (by rw [List.length_drop, hlt]),
           List.take_of_length_le (by rw [List.length_drop, hlu])]
    rwa [List.take_of_length_le (by rw [List.length_drop, hlt]),
         List.take_of_length_le (by rw [List.length_drop, hlu])] at h14
  have step : ∀ k : Nat, k + 2 ≤ 15 →
      (t.drop k).take 2 = (u.drop k).take 2 →
      t.drop (k + 2) = u.drop (k + 2) →
      t.drop k = u.drop k := by
    intro k hk h2 hrest
    have et : t.drop k = (t.drop k).take 2 ++ (t.drop k).drop 2 :=
      (List.take_append_drop 2 (t.drop k)).symm
    have eu : u.drop k = (u.drop k).take 2 ++ (u.drop k).drop 2 :=
      (List.take_append_drop 2 (u.drop k)).symm
    rw [et, eu, List.drop_drop, List.drop_drop, h2]
    rw [hrest]
  have h12 : t.drop 12 = u.drop 12 := step 12 (by omega) (groupEq 12 2 (by omega) hs) hdrop14
  have h10 : t.drop 10 = u.drop 10 := step 10 (by omega) (groupEq 10 2 (by omega) hmi) h12
  have h8 : t.drop 8 = u.drop 8 := step 8 (by omega) (groupEq 8 2 (by omega) hh) h10
  have h6 : t.drop 6 = u.drop 6 := step 6 (by omega) (groupEq 6 2 (by omega) hd) h8
  have h4 : t.drop 4 = u.drop 4 := step 4 (by omega) (groupEq 4 2 (by omega) hmo) h6
  have hy4 : t.take 4 = u.take 4 := by
    have := groupEq 0 4 (by omega) (by simpa using hy)
    simpa using this
  calc t = t.take 4 ++ t.drop 4 := (List.take_append_drop 4 t).symm
    _ = u.take 4 ++ u.drop 4 := by rw [hy4, h4]
    _ = u := List.take_append_drop 4 u

/-- C5 (confirmed).  A filename whose first `_[0-9]{15}_` token is a
valid timestamp parses to the instant determined by that token alone
(noise around the token is irrelevant: a second filename carrying the
same token parses identically), the sub-second digit lands in the
microsecond field, distinct valid tokens give distinct instants, and a
filename without any such token yields `None`. -/
theorem extractDateTime_token_determines_instant (f g f0 : String)
    (t u : List Char)
    (hf : reSearch tsMatchAt (basename f).data = some t)
    (hg : reSearch tsMatchAt (basename g).data = some t)
    (hv : validTok t = true)
    (h0 : reSearch tsMatchAt (basename f0).data = none)
    (hu : validTok u = true)
    (he : parseTok t = parseTok u) :
    getDateTime f = .ok (some (parseTok t)) ∧
    getDateTime g = getDateTime f ∧
    getDateTime f0 = .ok none ∧
    t = u := by
  refine ⟨?_, ?_, ?_, parseTok_inj hv hu he⟩
  · unfold getDateTime
    rw [hf]
    simp [hv]
  · unfold getDateTime
    rw [hf, hg]
  · unfold getDateTime
    rw [h0]

/-- Witness for `extractDateTime_token_determines_instant`: the same
valid token embedded in two differently noisy filenames, and a
token-free filename. -/
theorem extractDateTime_witness :
    getDateTime "p/A_202001011230451_B.zip"
      = .ok (some (parseTok ("202001011230451".data))) ∧
    getDateTime "q/ZZ_99_202001011230451_R1C1.zip"
      = getDateTime "p/A_202001011230451_B.zip" ∧
    getDateTime "p/no_token_here.zip" = .ok none ∧
    ("202001011230451".data) = ("202001011230451".data) :=
  extractDateTime_token_determines_instant
    "p/A_202001011230451_B.zip" "q/ZZ_99_202001011230451_R1C1.zip"
    "p/no_token_here.zip" ("202001011230451".data) ("202001011230451".data)
    (by decide) (by decide) (by decide) (by decide) (by decide) rfl

/-! ## Trace lemmas for the pipeline topologies -/

/-- A trace free of `Superimpose` invocations. -/
def noSuper (t : List EngineCall) : Prop :=
  t.all (fun c => !c.isSuperimpose) = true

theorem noSuper_append {a b : List EngineCall} (ha : noSuper a) (hb : noSuper b) :
    noSuper (a ++ b) := by
  unfold noSuper at *
  rw [List.all_append, ha, hb]
  rfl

theorem noSuper_srtm (cfg : Config) (fs : FS) (imgs : List String) :
    noSuper (getSrtmTiles cfg fs imgs).2 := by
  unfold getSrtmTiles
  cases cfg.dem_path <;> simp [noSuper, EngineCall.isSuperimpose]

theorem noSuper_calibrate (fs : FS) (imgs : List String) (out lvl : String) (m : Bool) :
    noSuper (getCalibratedImages fs imgs out lvl m).2.2 := by
  induction imgs generalizing fs with
  | nil => simp [noSuper, getCalibratedImages]
  | cons i rest ih =>
    unfold getCalibratedImages calibrateOne
    by_cases h : calOutPath out i ∈ fs <;>
      simpa [h, noSuper, EngineCall.isSuperimpose] using ih _

theorem noSuper_fusion (fs : FS) (imgs : List String) (out : String) :
    noSuper (getTileFusionImages fs imgs out).2.2 := by
  unfold getTileFusionImages
  repeat' split
  all_goals simp [noSuper, EngineCall.isSuperimpose]

theorem noSuper_roi (resolver : String → Option Coords) (fs : FS)
    (image out : String) :
    noSuper (getRoiImage resolver fs image out).2.2 := by
  unfold getRoiImage
  repeat' split
  all_goals simp [noSuper, EngineCall.isSuperimpose]

theorem noSuper_processBand (cfg : Config) (fs : FS) (imgs : List String)
    (root id : String) :
    noSuper (processBand cfg fs imgs root id).2.2 := by
  have ht1 : noSuper (bandCal cfg fs imgs root id).2.2 :=
    noSuper_calibrate fs imgs (pathJoin root ("cal/" ++ id)) "toa" true
  have ht2 : noSuper (bandFuse cfg fs imgs root id).2.2 :=
    noSuper_fusion _ _ _
  unfold processBand
  split
  · exact noSuper_append ht1 ht2
  · split
    · exact noSuper_append ht1 ht2
    · split
      · exact noSuper_append ht1 ht2
      · exact noSuper_append (noSuper_append ht1 ht2) (noSuper_roi _ _ _ _)

theorem noSuper_bandPhase (cfg : Config) (env : Env) (root : String) (fs : FS) :
    noSuper (bandPhase cfg env root fs).2.2 := by
  have ht0 : noSuper (getSrtmTiles cfg fs env.imagesP).2 :=
    noSuper_srtm cfg fs env.imagesP
  have hta : noSuper (bandMS cfg env root fs).2.2 := noSuper_processBand _ _ _ _ _
  have htb : noSuper (bandP cfg env root fs).2.2 := noSuper_processBand _ _ _ _ _
  unfold bandPhase
  split
  · exact noSuper_append ht0 hta
  · split
    · exact noSuper_append (noSuper_append ht0 hta) htb
    · exact noSuper_append (noSuper_append ht0 hta) htb

/-- The superimposition result path is fixed by the inputs alone. -/
theorem getSuperimposedImage_fst (cfg : Config) (fs : FS) (ms p out : String) :
    (getSuperimposedImage cfg fs ms p out).1 = supOutPath out ms := by
  unfold getSuperimposedImage
  split <;> rfl

/-- The pansharpening result path is fixed by the inputs alone. -/
theorem getPansharpenImage_fst (cfg : Config) (fs : FS) (ms p out : String) :
    (getPansharpenImage cfg fs ms p out).1 = panOutPath out ms := by
  unfold getPansharpenImage
  split <;> rfl

/-! ## C1 — the two stage topologies and where they diverge -/

/-- C1 (confirmed).  From the same band phase (the identical fused —
optionally clipped — MS/PAN mosaic pair `ms`, `p`), on fresh output
paths: the Pleiades tail appends a `Superimpose` invocation and then a
`Pansharpening` invocation whose multispectral input is exactly the
superimposition's output, while the SPOT tail appends a single
`Pansharpening` invocation whose multispectral input is the fused
mosaic `ms` itself, and no `Superimpose` call occurs anywhere in a SPOT
trace.  The two topologies agree on the panchromatic input `p` and
diverge exactly in what feeds pansharpening. -/
theorem pipeline_topology_divergence (cfg : Config) (env : Env)
    (scene ard : String) (fs0 : FS) (ms p : String)
    (hx : env.extractCode = 0)
    (hb : (bandPhase cfg env (rootOf scene) (sceneFS scene fs0)).1
            = .ok (some ms, some p))
    (hs : supOutPath (pathJoin (rootOf scene) "pan") ms ∉
            (bandPhase cfg env (rootOf scene) (sceneFS scene fs0)).2.1)
    (hp : panOutPath (pathJoin (rootOf scene) "pan")
            (supOutPath (pathJoin (rootOf scene) "pan") ms) ∉
            (pleiadesSuper cfg env scene fs0 ms p).2.1)
    (hq : panOutPath (pathJoin (rootOf scene) "pan") ms ∉
            (bandPhase cfg env (rootOf scene) (sceneFS scene fs0)).2.1) :
    (pleiadesProcessToArd cfg env scene fs0).2.2
      = (bandPhase cfg env (rootOf scene) (sceneFS scene fs0)).2.2 ++
        [.superimpose p ms (supOutPath (pathJoin (rootOf scene) "pan") ms)
           (elevParams cfg),
         .pansharpening p (supOutPath (pathJoin (rootOf scene) "pan") ms)
           (panOutPath (pathJoin (rootOf scene) "pan")
             (supOutPath (pathJoin (rootOf scene) "pan") ms)) cfg.pan_method] ∧
    (spotProcessToArd cfg env scene ard fs0).2.2
      = (bandPhase cfg env (rootOf scene) (sceneFS scene fs0)).2.2 ++
        [.pansharpening p ms (panOutPath (pathJoin (rootOf scene) "pan") ms)
           cfg.pan_method] ∧
    noSuper (bandPhase cfg env (rootOf scene) (sceneFS scene fs0)).2.2 ∧
    noSuper (spotProcessToArd cfg env scene ard fs0).2.2 := by
  have hsupRun : pleiadesSuper cfg env scene fs0 ms p
      = (supOutPath (pathJoin (rootOf scene) "pan") ms,
         supOutPath (pathJoin (rootOf scene) "pan") ms ::
           mkdirs (bandPhase cfg env (rootOf scene) (sceneFS scene fs0)).2.1
             (pathJoin (rootOf scene) "pan"),
         [.superimpose p ms (supOutPath (pathJoin (rootOf scene) "pan") ms)
            (elevParams cfg)]) := by
    unfold pleiadesSuper getSuperimposedImage
    rw [if_neg hs]
  have hp2 : panOutPath (pathJoin (rootOf scene) "pan")
      (supOutPath (pathJoin (rootOf scene) "pan") ms) ∉
      (supOutPath (pathJoin (rootOf scene) "pan") ms ::
        mkdirs (bandPhase cfg env (rootOf scene) (sceneFS scene fs0)).2.1
          (pathJoin (rootOf scene) "pan")) := by
    rw [hsupRun] at hp
    exact hp
  have hpanRun : getPansharpenImage cfg (pleiadesSuper cfg env scene fs0 ms p).2.1
      (pleiadesSuper cfg env scene fs0 ms p).1 p (pathJoin (rootOf scene) "pan")
      = (panOutPath (pathJoin (rootOf scene) "pan")
           (supOutPath (pathJoin (rootOf scene) "pan") ms),
         panOutPath (pathJoin (rootOf scene) "pan")
             (supOutPath (pathJoin (rootOf scene) "pan") ms) ::
           mkdirs (supOutPath (pathJoin (rootOf scene) "pan") ms ::
             mkdirs (bandPhase cfg env (rootOf scene) (sceneFS scene fs0)).2.1
               (pathJoin (rootOf scene) "pan")) (pathJoin (rootOf scene) "pan"),
         [.pansharpening p (supOutPath (pathJoin (rootOf scene) "pan") ms)
            (panOutPath (pathJoin (rootOf scene) "pan")
              (supOutPath (pathJoin (rootOf scene) "pan") ms)) cfg.pan_method]) := by
    rw [hsupRun]
    unfold getPansharpenImage
    rw [if_neg hp2]
  have hpanRunS : getPansharpenImage cfg
      (bandPhase cfg env (rootOf scene) (sceneFS scene fs0)).2.1 ms p
      (pathJoin (rootOf scene) "pan")
      = (panOutPath (pathJoin (rootOf scene) "pan") ms,
         panOutPath (pathJoin (rootOf scene) "pan") ms ::
           mkdirs (bandPhase cfg env (rootOf scene) (sceneFS scene fs0)).2.1
             (pathJoin (rootOf scene) "pan"),
         [.pansharpening p ms (panOutPath (pathJoin (rootOf scene) "pan") ms)
            cfg.pan_method]) := by
    unfold getPansharpenImage
    rw [if_neg hq]
  have hspotTr : (spotProcessToArd cfg env scene ard fs0).2.2
      = (bandPhase cfg env (rootOf scene) (sceneFS scene fs0)).2.2 ++
        [.pansharpening p ms (panOutPath (pathJoin (rootOf scene) "pan") ms)
           cfg.pan_method] := by
    unfold spotProcessToArd
    rw [if_pos hx]
    simp only [hb]
    rw [hpanRunS]
  refine ⟨?_, hspotTr, noSuper_bandPhase cfg env (rootOf scene) (sceneFS scene fs0), ?_⟩
  · unfold pleiadesProcessToArd
    rw [if_pos hx]
    simp only [hb]
    rw [hpanRun, hsupRun]
    simp
  · rw [hspotTr]
    exact noSuper_append
      (noSuper_bandPhase cfg env (rootOf scene) (sceneFS scene fs0))
      (by simp [noSuper, EngineCall.isSuperimpose])

/-- Witness for `pipeline_topology_divergence`: a concrete Pleiades
scene with one `R1C1` tile per band, no ROI, no DEM, run through both
topologies. -/
theorem pipeline_topology_divergence_witness :
    (pleiadesProcessToArd ⟨none, none, none, none⟩
        ⟨0, ["e/IMG_PHR1A_MS_202001011230451_R1C1.TIF"],
            ["e/IMG_PHR1A_P_202001011230451_R1C1.TIF"]⟩
        "d/IMG_PHR1A_MS_202001011230451_R1C1.zip" []).2.2
      = (bandPhase ⟨none, none, none, none⟩
          ⟨0, ["e/IMG_PHR1A_MS_202001011230451_R1C1.TIF"],
              ["e/IMG_PHR1A_P_202001011230451_R1C1.TIF"]⟩
          (rootOf "d/IMG_PHR1A_MS_202001011230451_R1C1.zip")
          (sceneFS "d/IMG_PHR1A_MS_202001011230451_R1C1.zip" [])).2.2 ++
        [.superimpose "d/tmp/cal/P/IMG_PHR1A_P_202001011230451_R1C1_CAL.TIF"
           "d/tmp/cal/MS/IMG_PHR1A_MS_202001011230451_R1C1_CAL.TIF"
           (supOutPath
             (pathJoin (rootOf "d/IMG_PHR1A_MS_202001011230451_R1C1.zip") "pan")
             "d/tmp/cal/MS/IMG_PHR1A_MS_202001011230451_R1C1_CAL.TIF")
           (elevParams ⟨none, none, none, none⟩),
         .pansharpening "d/tmp/cal/P/IMG_PHR1A_P_202001011230451_R1C1_CAL.TIF"
           (supOutPath
             (pathJoin (rootOf "d/IMG_PHR1A_MS_202001011230451_R1C1.zip") "pan")
             "d/tmp/cal/MS/IMG_PHR1A_MS_202001011230451_R1C1_CAL.TIF")
           (panOutPath
             (pathJoin (rootOf "d/IMG_PHR1A_MS_202001011230451_R1C1.zip") "pan")
             (supOutPath
               (pathJoin (rootOf "d/IMG_PHR1A_MS_202001011230451_R1C1.zip") "pan")
               "d/tmp/cal/MS/IMG_PHR1A_MS_202001011230451_R1C1_CAL.TIF"))
           none] ∧
    (spotProcessToArd ⟨none, none, none, none⟩
        ⟨0, ["e/IMG_PHR1A_MS_202001011230451_R1C1.TIF"],
            ["e/IMG_PHR1A_P_202001011230451_R1C1.TIF"]⟩
        "d/IMG_PHR1A_MS_202001011230451_R1C1.zip" "ard" []).2.2
      = (bandPhase ⟨none, none, none, none⟩
          ⟨0, ["e/IMG_PHR1A_MS_202001011230451_R1C1.TIF"],
              ["e/IMG_PHR1A_P_202001011230451_R1C1.TIF"]⟩
          (rootOf "d/IMG_PHR1A_MS_202001011230451_R1C1.zip")
          (sceneFS "d/IMG_PHR1A_MS_202001011230451_R1C1.zip" [])).2.2 ++
        [.pansharpening "d/tmp/cal/P/IMG_PHR1A_P_202001011230451_R1C1_CAL.TIF"
           "d/tmp/cal/MS/IMG_PHR1A_MS_202001011230451_R1C1_CAL.TIF"
           (panOutPath
             (pathJoin (rootOf "d/IMG_PHR1A_MS_202001011230451_R1C1.zip") "pan")
             "d/tmp/cal/MS/IMG_PHR1A_MS_202001011230451_R1C1_CAL.TIF")
           none] ∧
    noSuper (bandPhase ⟨none, none, none, none⟩
        ⟨0, ["e/IMG_PHR1A_MS_202001011230451_R1C1.TIF"],
            ["e/IMG_PHR1A_P_202001011230451_R1C1.TIF"]⟩
        (rootOf "d/IMG_PHR1A_MS_202001011230451_R1C1.zip")
        (sceneFS "d/IMG_PHR1A_MS_202001011230451_R1C1.zip" [])).2.2 ∧
    noSuper (spotProcessToArd ⟨none, none, none, none⟩
        ⟨0, ["e/IMG_PHR1A_MS_202001011230451_R1C1.TIF"],
            ["e/IMG_PHR1A_P_202001011230451_R1C1.TIF"]⟩
        "d/IMG_PHR1A_MS_202001011230451_R1C1.zip" "ard" []).2.2 :=
  pipeline_topology_divergence ⟨none, none, none, none⟩
    ⟨0, ["e/IMG_PHR1A_MS_202001011230451_R1C1.TIF"],
        ["e/IMG_PHR1A_P_202001011230451_R1C1.TIF"]⟩
    "d/IMG_PHR1A_MS_202001011230451_R1C1.zip" "ard" []
    "d/tmp/cal/MS/IMG_PHR1A_MS_202001011230451_R1C1_CAL.TIF"
    "d/tmp/cal/P/IMG_PHR1A_P_202001011230451_R1C1_CAL.TIF"
    (by decide) (by decide) (by decide) (by decide) (by decide)

/-! ## C4 — what `processToArd` returns -/

/-- C4 counterexample.  On a concrete successful SPOT run the caller
receives `None` — not the pansharpened path the claim promises (the
stage computed `d/tmp/pan/IMG_PHR1A_MS_202001011230451_R1C1_CAL.TIF`
and the bare `return` discarded it) — and the Pleiades pair's second
component is the superimposed `_MS_SUPER_` image, not the MS mosaic
path. -/
theorem ard_return_counterexample :
    (spotProcessToArd ⟨none, none, none, none⟩
        ⟨0, ["e/IMG_PHR1A_MS_202001011230451_R1C1.TIF"],
            ["e/IMG_PHR1A_P_202001011230451_R1C1.TIF"]⟩
        "d/IMG_PHR1A_MS_202001011230451_R1C1.zip" "ard" []).1 = .ok none ∧
    (Except.ok (none : Option String) : Except Unit (Option String))
      ≠ .ok (some "d/tmp/pan/IMG_PHR1A_MS_202001011230451_R1C1_CAL.TIF") ∧
    (pleiadesProcessToArd ⟨none, none, none, none⟩
        ⟨0, ["e/IMG_PHR1A_MS_202001011230451_R1C1.TIF"],
            ["e/IMG_PHR1A_P_202001011230451_R1C1.TIF"]⟩
        "d/IMG_PHR1A_MS_202001011230451_R1C1.zip" []).1
      = .ok ("d/tmp/pan/IMG_PHR1A_PAN_202001011230451_R1C1_CAL.TIF",
             "d/tmp/pan/IMG_PHR1A_MS_SUPER_202001011230451_R1C1_CAL.TIF") ∧
    "d/tmp/pan/IMG_PHR1A_MS_SUPER_202001011230451_R1C1_CAL.TIF"
      ≠ "d/tmp/cal/MS/IMG_PHR1A_MS_202001011230451_R1C1_CAL.TIF" := by
  refine ⟨by decide, by decide, by decide, by decide⟩

/-- C4 (corrected; this is the amended claim).  On a successfully
processed scene `Pleiades.processToArd` returns the pair of the
pansharpened product path and the superimposed multispectral image
path (the `mosaic['MS']` slot was overwritten by the superimposition
before the return), while `Spot.processToArd` returns no value at all:
its bare `return` hands the caller `None` even though the pansharpened
product was produced. -/
theorem ard_return_values (cfg : Config) (env : Env) (scene ard : String)
    (fs0 : FS) (ms p : String)
    (hx : env.extractCode = 0)
    (hb : (bandPhase cfg env (rootOf scene) (sceneFS scene fs0)).1
            = .ok (some ms, some p)) :
    (pleiadesProcessToArd cfg env scene fs0).1
      = .ok (panOutPath (pathJoin (rootOf scene) "pan")
               (supOutPath (pathJoin (rootOf scene) "pan") ms),
             supOutPath (pathJoin (rootOf scene) "pan") ms) ∧
    (spotProcessToArd cfg env scene ard fs0).1 = .ok none := by
  constructor
  · have hsup : (pleiadesSuper cfg env scene fs0 ms p).1
        = supOutPath (pathJoin (rootOf scene) "pan") ms := by
      unfold pleiadesSuper
      exact getSuperimposedImage_fst cfg _ ms p _
    unfold pleiadesProcessToArd
    rw [if_pos hx]
    simp only [hb]
    rw [getPansharpenImage_fst, hsup]
  · unfold spotProcessToArd
    rw [if_pos hx]
    simp only [hb]

/-- Witness for `ard_return_values` on the concrete Pleiades scene
used above. -/
theorem ard_return_values_witness :
    (pleiadesProcessToArd ⟨none, none, none, none⟩
        ⟨0, ["e/IMG_PHR1A_MS_202001011230451_R1C1.TIF"],
            ["e/IMG_PHR1A_P_202001011230451_R1C1.TIF"]⟩
        "d/IMG_PHR1A_MS_202001011230451_R1C1.zip" []).1
      = .ok (panOutPath
               (pathJoin (rootOf "d/IMG_PHR1A_MS_202001011230451_R1C1.zip") "pan")
               (supOutPath
                 (pathJoin (rootOf "d/IMG_PHR1A_MS_202001011230451_R1C1.zip") "pan")
                 "d/tmp/cal/MS/IMG_PHR1A_MS_202001011230451_R1C1_CAL.TIF"),
             supOutPath
               (pathJoin (rootOf "d/IMG_PHR1A_MS_202001011230451_R1C1.zip") "pan")
               "d/tmp/cal/MS/IMG_PHR1A_MS_202001011230451_R1C1_CAL.TIF") ∧
    (spotProcessToArd ⟨none, none, none, none⟩
        ⟨0, ["e/IMG_PHR1A_MS_202001011230451_R1C1.TIF"],
            ["e/IMG_PHR1A_P_202001011230451_R1C1.TIF"]⟩
        "d/IMG_PHR1A_MS_202001011230451_R1C1.zip" "ard" []).1 = .ok none :=
  ard_return_values ⟨none, none, none, none⟩
    ⟨0, ["e/IMG_PHR1A_MS_202001011230451_R1C1.TIF"],
        ["e/IMG_PHR1A_P_202001011230451_R1C1.TIF"]⟩
    "d/IMG_PHR1A_MS_202001011230451_R1C1.zip" "ard" []
    "d/tmp/cal/MS/IMG_PHR1A_MS_202001011230451_R1C1_CAL.TIF"
    "d/tmp/cal/P/IMG_PHR1A_P_202001011230451_R1C1_CAL.TIF"
    (by decide) (by decide)

end Gla
